import Mathlib

/-!
Verification of the claude-mm-tool core: response cache (cache.py),
cost estimation (costs.py, cost_tracker.py), pricing resolution
(pricing.py) and model normalization (models.py).

Shallow embedding conventions:
* Python `int` is `ℤ`, Python `float` prices/ratios are `ℚ` (exact
  rationals; the decimal literals of the source are transcribed exactly).
* Fallible functions (Python `raise ValueError`) return `Except CostError`.
* Dictionaries keyed by strings become functions `String → Option _`
  written as the source writes the dict literals, in source order.
* The on-disk cache directory becomes an explicit state
  `String → Option CacheEntry` (one entry per key, as one file per key);
  `datetime.now()` becomes an explicit `now : ℚ` argument (hours).
* The SHA-256 hex digest of `get_cache_key` is an opaque function
  parameter `hash : String → String`; collision resistance is the
  hypothesis `Function.Injective hash` where a claim needs it.  The
  pre-hash content string — model, colon, system prompt or empty, colon,
  prompt — is `cacheKeyContent`.
* `load_pricing()` is fixed at the embedded defaults `DEFAULT_PRICING`
  (the external YAML override file and the remote refresh are
  environment I/O outside the embedding; the `_metadata` block carries
  no model pricing and is omitted).
-/

/-! ## models.py : model registry and normalization -/

/-- OPENAI_MODELS dict (models.py): user-facing name → API name. -/
def OPENAI_MODELS (m : String) : Option String :=
  if m = "gpt-5.2-chat-latest" then some "gpt-5.2-chat-latest"
  else if m = "gpt-5.2" then some "gpt-5.2"
  else if m = "gpt-5.2-pro" then some "gpt-5.2-pro"
  else if m = "gpt-4o" then some "gpt-4o"
  else if m = "gpt-4" then some "gpt-4"
  else none

/-- OPENAI_ALIASES dict (models.py). -/
def OPENAI_ALIASES (m : String) : Option String :=
  if m = "gpt" then some "gpt-5.2"
  else if m = "gpt-5" then some "gpt-5.2"
  else if m = "gpt-instant" then some "gpt-5.2-chat-latest"
  else if m = "gpt-5.2-instant" then some "gpt-5.2-chat-latest"
  else none

/-- GEMINI_MODELS dict (models.py). -/
def GEMINI_MODELS (m : String) : Option String :=
  if m = "gemini-3-flash-preview" then some "gemini-3-flash-preview"
  else if m = "gemini-2.0-flash-exp" then some "gemini-2.0-flash-exp"
  else if m = "gemini-pro" then some "gemini-pro"
  else none

/-- GEMINI_ALIASES dict (models.py). -/
def GEMINI_ALIASES (m : String) : Option String :=
  if m = "gemini" then some "gemini-3-flash-preview" else none

/-- CLAUDE_MODELS dict (models.py). -/
def CLAUDE_MODELS (m : String) : Option String :=
  if m = "claude-sonnet-4-5-20250929" then some "claude-sonnet-4-5-20250929"
  else if m = "claude-3-5-sonnet-20241022" then some "claude-3-5-sonnet-20241022"
  else if m = "claude-3-opus-20240229" then some "claude-3-opus-20240229"
  else if m = "claude-3-haiku-20240307" then some "claude-3-haiku-20240307"
  else none

/-- CLAUDE_ALIASES dict (models.py). -/
def CLAUDE_ALIASES (m : String) : Option String :=
  if m = "claude" then some "claude-sonnet-4-5-20250929" else none

/-- normalize_model_name (models.py): user-facing name → (provider, api model),
checked in the fixed source order; `none` models the `ValueError` raise. -/
def normalize_model_name (model : String) : Option (String × String) :=
  match OPENAI_MODELS model with
  | some api => some ("openai", api)
  | none =>
  match (OPENAI_ALIASES model).bind OPENAI_MODELS with
  | some api => some ("openai", api)
  | none =>
  match GEMINI_MODELS model with
  | some api => some ("google", api)
  | none =>
  match (GEMINI_ALIASES model).bind GEMINI_MODELS with
  | some api => some ("google", api)
  | none =>
  match CLAUDE_MODELS model with
  | some api => some ("anthropic", api)
  | none =>
  match (CLAUDE_ALIASES model).bind CLAUDE_MODELS with
  | some api => some ("anthropic", api)
  | none => none

/-! ## pricing.py : pricing table and resolution -/

/-- One pricing entry: input/output price per 1M tokens (USD). -/
structure Pricing where
  input : ℚ
  output : ℚ
  deriving DecidableEq, Repr

/-- DEFAULT_PRICING (pricing.py): the embedded defaults, written exactly as
the source dict (decimal literals transcribed to exact rationals). -/
def DEFAULT_PRICING (provider model : String) : Option Pricing :=
  if provider = "openai" then
    if model = "gpt-5.2-chat-latest" then some ⟨2/5, 8/5⟩
    else if model = "gpt-5.2" then some ⟨7/4, 14⟩
    else if model = "gpt-5.2-pro" then some ⟨21, 84⟩
    else if model = "gpt-4o" then some ⟨5/2, 10⟩
    else if model = "gpt-4" then some ⟨30, 60⟩
    else none
  else if provider = "google" then
    if model = "gemini-3-flash-preview" then some ⟨3/40, 3/10⟩
    else if model = "gemini-2.0-flash-exp" then some ⟨3/40, 3/10⟩
    else if model = "gemini-pro" then some ⟨1/2, 3/2⟩
    else none
  else if provider = "anthropic" then
    if model = "claude-sonnet-4-5-20250929" then some ⟨3, 15⟩
    else if model = "claude-3-5-sonnet-20241022" then some ⟨3, 15⟩
    else if model = "claude-3-opus-20240229" then some ⟨15, 75⟩
    else if model = "claude-3-haiku-20240307" then some ⟨1/4, 5/4⟩
    else none
  else none

/-- get_model_pricing (pricing.py): exact match first, then the
provider-specific default model, else `none`.  `load_pricing()` is fixed
at `DEFAULT_PRICING` (see header). -/
def get_model_pricing (provider model : String) : Option Pricing :=
  match DEFAULT_PRICING provider model with
  | some p => some p
  | none =>
    if provider = "openai" then DEFAULT_PRICING "openai" "gpt-5.2"
    else if provider = "google" then DEFAULT_PRICING "google" "gemini-3-flash-preview"
    else if provider = "anthropic" then DEFAULT_PRICING "anthropic" "claude-sonnet-4-5-20250929"
    else none

/-! ## costs.py : cost estimation -/

/-- CACHE_DISCOUNTS dict (costs.py); `estimate_cost` reads it with
`.get(provider, 0.90)`, modelled by `Option.getD` below. -/
def CACHE_DISCOUNTS (provider : String) : Option ℚ :=
  if provider = "openai" then some (9/10)
  else if provider = "google" then some (3/4)
  else if provider = "anthropic" then some (9/10)
  else none

/-- The `ValueError` raise sites of costs.py. -/
inductive CostError where
  | unknownModel
  | noPricing
  | ratioOutOfRange
  deriving DecidableEq, Repr

/-- estimate_tokens (costs.py): `0` for empty text, else `max(1, len(text) // 4)`
with CHARS_PER_TOKEN = 4. -/
def estimate_tokens (text : String) : ℕ :=
  if text = "" then 0 else max 1 (text.length / 4)

/-- estimate_cost (costs.py): normalize, resolve pricing, clamp
`cached_tokens` into `[0, input_tokens]`, price uncached input at the full
input rate, cached input at `input × (1 − discount)`, output at the output
rate. -/
def estimate_cost (model : String) (input_tokens output_tokens cached_tokens : ℤ) :
    Except CostError ℚ :=
  match normalize_model_name model with
  | none => .error .unknownModel
  | some (provider, api_model) =>
    match get_model_pricing provider api_model with
    | none => .error .noPricing
    | some pricing =>
      let cached_tokens := max 0 (min cached_tokens input_tokens)
      let uncached_tokens := input_tokens - cached_tokens
      let input_cost := (uncached_tokens : ℚ) / 1000000 * pricing.input
      let cache_discount := (CACHE_DISCOUNTS provider).getD (9/10)
      let cached_price := pricing.input * (1 - cache_discount)
      let cached_cost := (cached_tokens : ℚ) / 1000000 * cached_price
      let output_cost := (output_tokens : ℚ) / 1000000 * pricing.output
      .ok (input_cost + cached_cost + output_cost)

/-- Python `str.lower()`: lowercase each character (the model names here
are ASCII, where `Char.toLower` agrees with Python). -/
def strLower (s : String) : String :=
  ⟨s.data.map Char.toLower⟩

/-- Char-list `l` starts with `needle` (helper for the Python substring
test `"pro" in model.lower()`). -/
def startsWithChars : List Char → List Char → Bool
  | [], _ => true
  | _ :: _, [] => false
  | a :: as, b :: bs => a = b && startsWithChars as bs

/-- Python substring containment `needle in hay` on char lists. -/
def containsSub (needle : List Char) : List Char → Bool
  | [] => needle.isEmpty
  | c :: rest => startsWithChars needle (c :: rest) || containsSub needle rest

/-- Result dictionary of estimate_cost_from_text (either module).  The
display-only `cost_formatted` string is omitted. -/
structure CostBreakdown where
  model : String
  input_tokens : ℤ
  output_tokens : ℤ
  cached_tokens : ℤ
  estimated_cost : ℚ
  is_estimated : Bool
  deriving DecidableEq, Repr

/-- estimate_cost_from_text (costs.py): validate `cached_ratio ∈ [0,1]`,
derive `cached_tokens = int(input_tokens * cached_ratio)` (Python `int()`
truncation; the product is ≥ 0 here, where truncation equals `⌊·⌋`), and
set `is_estimated = "pro" in model.lower()`. -/
def estimate_cost_from_text (model input_text : String)
    (expected_output_tokens : ℤ) ( cached_ratio : ℚ) :
    Except CostError CostBreakdown :=
  if ¬ (0 ≤ cached_ratio ∧ cached_ratio ≤ 1) then .error .ratioOutOfRange
  else
    let input_tokens : ℤ := (estimate_tokens input_text : ℤ)
    let cached_tokens : ℤ := ⌊(input_tokens : ℚ) * cached_ratio⌋
    match estimate_cost model input_tokens expected_output_tokens cached_tokens with
    | .error e => .error e
    | .ok cost =>
      .ok ⟨model, input_tokens, expected_output_tokens, cached_tokens, cost,
           containsSub "pro".data (strLower model).data⟩

/-! ## cost_tracker.py : the standalone tracker variant -/

namespace CostTracker

/-- One PRICING entry of cost_tracker.py: input/output/cached rates per 1M
tokens plus the vendor-confirmation flag. -/
structure TrackerPricing where
  input : ℚ
  output : ℚ
  cached : ℚ
  is_estimated : Bool
  deriving DecidableEq, Repr

/-- PRICING dict (cost_tracker.py); the base entries `_GPT_INSTANT`,
`_GPT_STANDARD`, `_GPT_PRO`, `_GEMINI_FLASH`, `_CLAUDE_SONNET` are inlined
at each alias, exactly as the `.copy()` calls populate the dict. -/
def PRICING (m : String) : Option TrackerPricing :=
  if m = "gpt-5.2-instant" then some ⟨2/5, 8/5, 1/25, false⟩
  else if m = "gpt-5.2-chat-latest" then some ⟨7/4, 14, 7/40, false⟩
  else if m = "gpt-5.2" then some ⟨7/4, 14, 7/40, false⟩
  else if m = "gpt-5" then some ⟨7/4, 14, 7/40, false⟩
  else if m = "gpt" then some ⟨7/4, 14, 7/40, false⟩
  else if m = "gpt-5.2-pro" then some ⟨35/4, 70, 7/8, true⟩
  else if m = "gemini" then some ⟨3/40, 3/10, 3/160, false⟩
  else if m = "gemini-3-flash-preview" then some ⟨3/40, 3/10, 3/160, false⟩
  else if m = "claude" then some ⟨3, 15, 3/10, true⟩
  else if m = "claude-sonnet-4-5-20250929" then some ⟨3, 15, 3/10, true⟩
  else none

/-- estimate_cost (cost_tracker.py): direct PRICING lookup, clamp, cached
input priced at the stored `cached` rate. -/
def estimate_cost (model : String) (input_tokens output_tokens cached_tokens : ℤ) :
    Except CostError ℚ :=
  match PRICING model with
  | none => .error .unknownModel
  | some pricing =>
    let cached_tokens := max 0 (min cached_tokens input_tokens)
    let uncached_tokens := input_tokens - cached_tokens
    let input_cost := (uncached_tokens : ℚ) / 1000000 * pricing.input
    let cached_cost := (cached_tokens : ℚ) / 1000000 * pricing.cached
    let output_cost := (output_tokens : ℚ) / 1000000 * pricing.output
    .ok (input_cost + cached_cost + output_cost)

/-- estimate_cost_from_text (cost_tracker.py): same validation and token
derivation as the costs.py variant; `is_estimated` is read back out of the
PRICING entry via `PRICING.get(model, {}).get("is_estimated", True)`. -/
def estimate_cost_from_text (model input_text : String)
    (expected_output_tokens : ℤ) ( cached_ratio : ℚ) :
    Except CostError CostBreakdown :=
  if ¬ (0 ≤ cached_ratio ∧ cached_ratio ≤ 1) then .error .ratioOutOfRange
  else
    let input_tokens : ℤ := (estimate_tokens input_text : ℤ)
    let cached_tokens : ℤ := ⌊(input_tokens : ℚ) * cached_ratio⌋
    match estimate_cost model input_tokens expected_output_tokens cached_tokens with
    | .error e => .error e
    | .ok cost =>
      .ok ⟨model, input_tokens, expected_output_tokens, cached_tokens, cost,
           ((PRICING model).map TrackerPricing.is_estimated).getD true⟩

end CostTracker

/-! ## cache.py : response cache -/

/-- One cache file body — timestamp, model, response — with the timestamp
in hours, matching the hour-based TTL comparison. -/
structure CacheEntry where
  timestamp : ℚ
  model : String
  response : String
  deriving DecidableEq, Repr

/-- The cache directory: one entry per cache key (one file per key). -/
def CacheState : Type := String → Option CacheEntry

/-- The pre-hash content string of get_cache_key (cache.py): the f-string
joining model, system prompt (or empty) and prompt with colons.
`Option.getD` with the empty-string default models the Python or-idiom
(it sends both an absent and an empty system prompt to the empty string). -/
def cacheKeyContent (model prompt : String) (system_prompt : Option String) : String :=
  model ++ ":" ++ system_prompt.getD "" ++ ":" ++ prompt

/-- get_cache_key (cache.py): SHA-256 hex digest of the content string;
the digest is the opaque parameter `hash`. -/
def get_cache_key (hash : String → String) (model prompt : String)
    (system_prompt : Option String) : String :=
  hash (cacheKeyContent model prompt system_prompt)

/-- get_cached_response (cache.py): returns the cached text and the cache
state after the call.  Absent key → `none`; entry with
`now - timestamp > ttl_hours` → `none` and the entry's file is unlinked;
otherwise the stored response.  (The corrupt-file `except` path returns
`none` without deleting; entries of this state are parsed by
construction.) -/
def get_cached_response (hash : String → String) (cache : CacheState) (now : ℚ)
    (model prompt : String) (system_prompt : Option String) (ttl_hours : ℤ) :
    Option String × CacheState :=
  let cache_key := get_cache_key hash model prompt system_prompt
  match cache cache_key with
  | none => (none, cache)
  | some entry =>
    if now - entry.timestamp > (ttl_hours : ℚ) then
      (none, fun k => if k = cache_key then none else cache k)
    else
      (some entry.response, cache)

/-- cache_response (cache.py): write the entry — timestamp now, model, response —
at the key (the temp-file + atomic-rename mechanics collapse to a plain
map update in this sequential state model; last writer wins). -/
def cache_response (hash : String → String) (cache : CacheState) (now : ℚ)
    (model prompt response : String) (system_prompt : Option String) : CacheState :=
  let cache_key := get_cache_key hash model prompt system_prompt
  fun k => if k = cache_key then some ⟨now, model, response⟩ else cache k

/-! ## Helper lemmas -/

/-- Character-level view of the fingerprint content string. -/
theorem cacheKeyContent_data (m p : String) (s : Option String) :
    (cacheKeyContent m p s).data =
      m.data ++ ':' :: ((s.getD "").data ++ ':' :: p.data) := by
  have hc : (":" : String).data = [':'] := rfl
  simp [cacheKeyContent, String.data_append, hc]

/-- The content string determines the model when prompt and system prompt agree. -/
theorem cacheKeyContent_inj_model {m m' p : String} {s : Option String}
    (h : cacheKeyContent m p s = cacheKeyContent m' p s) : m = m' := by
  have h' := congrArg String.data h
  rw [cacheKeyContent_data, cacheKeyContent_data] at h'
  exact String.ext (List.append_cancel_right h')

/-- The content string determines a present system prompt when model and prompt agree. -/
theorem cacheKeyContent_inj_sys {m p s s' : String}
    (h : cacheKeyContent m p (some s) = cacheKeyContent m p (some s')) : s = s' := by
  have h' := congrArg String.data h
  rw [cacheKeyContent_data, cacheKeyContent_data] at h'
  have h2 := List.append_cancel_left h'
  have h3 := List.tail_eq_of_cons_eq h2
  rw [show (':' :: p.data) = [':'] ++ p.data from rfl] at h3
  exact String.ext (List.append_cancel_right h3)

/-- The content string determines the prompt when model and system prompt agree. -/
theorem cacheKeyContent_inj_prompt {m p p' : String} {s : Option String}
    (h : cacheKeyContent m p s = cacheKeyContent m p' s) : p = p' := by
  have h' := congrArg String.data h
  rw [cacheKeyContent_data, cacheKeyContent_data] at h'
  have h2 := List.tail_eq_of_cons_eq (List.append_cancel_left h')
  exact String.ext (List.tail_eq_of_cons_eq (List.append_cancel_left h2))

/-! ## Claims -/

/-- Claim C1: storing a response and immediately looking it up with the same
model, prompt and system prompt and any ttl_hours ≥ 0 returns exactly the
stored response text. -/
theorem cache_store_then_lookup_roundtrip (hash : String → String) (cache : CacheState)
    (now : ℚ) (model prompt response : String) (system_prompt : Option String)
    (ttl_hours : ℤ) (h : 0 ≤ ttl_hours) :
    (get_cached_response hash
        (cache_response hash cache now model prompt response system_prompt)
        now model prompt system_prompt ttl_hours).1 = some response := by
  have hq : ¬ (now - now > (ttl_hours : ℚ)) := by
    rw [sub_self]
    exact not_lt.mpr (by exact_mod_cast h)
  have h2 : ¬ ttl_hours < 0 := not_lt.mpr h
  simp [get_cached_response, cache_response, get_cache_key, hq, h2]

/-- Claim C1 witness at concrete inputs. -/
theorem cache_store_then_lookup_roundtrip_witness :
    (get_cached_response id
        (cache_response id (fun _ => none) 0 "m" "p" "r" (some "s"))
        0 "m" "p" (some "s") 24).1 = some "r" :=
  cache_store_then_lookup_roundtrip id (fun _ => none) 0 "m" "p" "r" (some "s") 24
    (by decide)

/-- Claim C2: an entry stored at time T and looked up strictly after
T + ttl_hours is reported absent and its file is deleted; looked up strictly
before T + ttl_hours it yields the stored response; expiry is the comparison
(now − stored timestamp) > ttl. -/
theorem cache_ttl_boundary (hash : String → String) (cache : CacheState)
    (T now : ℚ) (model prompt response : String) (system_prompt : Option String)
    (ttl_hours : ℤ) :
    (now > T + (ttl_hours : ℚ) →
      (get_cached_response hash
          (cache_response hash cache T model prompt response system_prompt)
          now model prompt system_prompt ttl_hours).1 = none ∧
      (get_cached_response hash
          (cache_response hash cache T model prompt response system_prompt)
          now model prompt system_prompt ttl_hours).2
        (get_cache_key hash model prompt system_prompt) = none) ∧
    (now < T + (ttl_hours : ℚ) →
      (get_cached_response hash
          (cache_response hash cache T model prompt response system_prompt)
          now model prompt system_prompt ttl_hours).1 = some response) := by
  constructor
  · intro h
    have hgt : (ttl_hours : ℚ) < now - T := by linarith
    simp [get_cached_response, cache_response, get_cache_key, hgt]
  · intro h
    have hng : ¬ ((ttl_hours : ℚ) < now - T) := by push_neg; linarith
    simp [get_cached_response, cache_response, get_cache_key, hng]

/-- Claim C2 witness: expiry strictly after the boundary and freshness
strictly before it, at concrete inputs. -/
theorem cache_ttl_boundary_witness :
    ((get_cached_response id
        (cache_response id (fun _ => none) 0 "m" "p" "r" none) 10 "m" "p" none 2).1 = none ∧
      (get_cached_response id
        (cache_response id (fun _ => none) 0 "m" "p" "r" none) 10 "m" "p" none 2).2
        (get_cache_key id "m" "p" none) = none) ∧
    (get_cached_response id
        (cache_response id (fun _ => none) 0 "m" "p" "r" none) 1 "m" "p" none 2).1 = some "r" :=
  ⟨(cache_ttl_boundary id (fun _ => none) 0 10 "m" "p" "r" none 2).1 (by norm_num),
   (cache_ttl_boundary id (fun _ => none) 0 1 "m" "p" "r" none 2).2 (by norm_num)⟩

/-- Claim C10: an absent system prompt and an empty-string system prompt map
to the same fingerprint, so a store under one is hit by a lookup under the
other. -/
theorem cache_none_empty_system_prompt_interchangeable (hash : String → String)
    (cache : CacheState) (now : ℚ) (model prompt response : String)
    (ttl_hours : ℤ) (h : 0 ≤ ttl_hours) :
    get_cache_key hash model prompt none = get_cache_key hash model prompt (some "") ∧
    (get_cached_response hash
        (cache_response hash cache now model prompt response none)
        now model prompt (some "") ttl_hours).1 = some response ∧
    (get_cached_response hash
        (cache_response hash cache now model prompt response (some ""))
        now model prompt none ttl_hours).1 = some response := by
  have hq : ¬ (now - now > (ttl_hours : ℚ)) := by
    rw [sub_self]
    exact not_lt.mpr (by exact_mod_cast h)
  have h2 : ¬ ttl_hours < 0 := not_lt.mpr h
  refine ⟨rfl, ?_, ?_⟩ <;>
    simp [get_cached_response, cache_response, get_cache_key, cacheKeyContent,
      hq, h2]

/-- Claim C10 witness at concrete inputs. -/
theorem cache_none_empty_system_prompt_interchangeable_witness :
    get_cache_key id "m" "p" none = get_cache_key id "m" "p" (some "") ∧
    (get_cached_response id
        (cache_response id (fun _ => none) 0 "m" "p" "r" none)
        0 "m" "p" (some "") 24).1 = some "r" ∧
    (get_cached_response id
        (cache_response id (fun _ => none) 0 "m" "p" "r" (some ""))
        0 "m" "p" none 24).1 = some "r" :=
  cache_none_empty_system_prompt_interchangeable id (fun _ => none) 0 "m" "p" "r" 24
    (by decide)

/-- Claim C3 counterexample: the claim "any two distinct triples yield
different fingerprints (up to hash collisions)" is false before the hash is
even applied: the colon-joined content string identifies the distinct
triples ("a:b", system "c", prompt "d") and ("a", system "b:c", prompt "d"),
and an absent system prompt collides exactly with the empty one. -/
theorem get_cache_key_not_injective :
    cacheKeyContent "a:b" "d" (some "c") = cacheKeyContent "a" "d" (some "b:c") ∧
    (("a:b", some "c", "d") : String × Option String × String) ≠ ("a", some "b:c", "d") ∧
    get_cache_key id "m" "p" none = get_cache_key id "m" "p" (some "") ∧
    (none : Option String) ≠ some "" := by
  refine ⟨by decide, by decide, rfl, by decide⟩

/-- Claim C3 amended: the fingerprint is deterministic, and under an
injective (collision-free) hash it separates any two triples that differ in
exactly one component — except that an absent system prompt is identified
with the empty one.  (Triples differing in several components can collide
exactly, through the colon join; see the counterexample.) -/
theorem get_cache_key_deterministic_single_component_injective
    (hash : String → String) (hinj : Function.Injective hash) :
    (∀ m m' p p' sp sp', m = m' → p = p' → sp = sp' →
      get_cache_key hash m p sp = get_cache_key hash m' p' sp') ∧
    (∀ m m' p sp, m ≠ m' →
      get_cache_key hash m p sp ≠ get_cache_key hash m' p sp) ∧
    (∀ m p p' sp, p ≠ p' →
      get_cache_key hash m p sp ≠ get_cache_key hash m p' sp) ∧
    (∀ m p s s', s ≠ s' →
      get_cache_key hash m p (some s) ≠ get_cache_key hash m p (some s')) ∧
    (∀ m p, get_cache_key hash m p none = get_cache_key hash m p (some "")) := by
  refine ⟨?_, ?_, ?_, ?_, ?_⟩
  · rintro m m' p p' sp sp' rfl rfl rfl; rfl
  · intro m m' p sp hne hk
    exact hne (cacheKeyContent_inj_model (hinj hk))
  · intro m p p' sp hne hk
    exact hne (cacheKeyContent_inj_prompt (hinj hk))
  · intro m p s s' hne hk
    exact hne (cacheKeyContent_inj_sys (hinj hk))
  · intro m p; rfl

/-- Claim C3 amended witness: concrete separations under the identity hash. -/
theorem get_cache_key_deterministic_single_component_injective_witness :
    get_cache_key id "m1" "p" (some "s") ≠ get_cache_key id "m2" "p" (some "s") ∧
    get_cache_key id "m" "p1" (some "s") ≠ get_cache_key id "m" "p2" (some "s") ∧
    get_cache_key id "m" "p" (some "s1") ≠ get_cache_key id "m" "p" (some "s2") ∧
    get_cache_key id "m" "p" none = get_cache_key id "m" "p" (some "") :=
  ⟨(get_cache_key_deterministic_single_component_injective id Function.injective_id).2.1
      "m1" "m2" "p" (some "s") (by decide),
   (get_cache_key_deterministic_single_component_injective id Function.injective_id).2.2.1
      "m" "p1" "p2" (some "s") (by decide),
   (get_cache_key_deterministic_single_component_injective id Function.injective_id).2.2.2.1
      "m" "p" "s1" "s2" (by decide),
   (get_cache_key_deterministic_single_component_injective id Function.injective_id).2.2.2.2
      "m" "p"⟩

/-- The `CACHE_DISCOUNTS.get(provider, 0.90)` read: 3/4 for google, 9/10
for every other provider string (openai, anthropic and the default). -/
theorem cache_discount_getD (provider : String) :
    (CACHE_DISCOUNTS provider).getD (9/10) =
      if provider = "google" then 3/4 else 9/10 := by
  unfold CACHE_DISCOUNTS
  split_ifs with h1 h2 h3 <;> simp_all

/-- Claim C4: with fully cached input (cached_tokens = input_tokens ≥ 0),
the estimated cost is exactly
I/1e6 × input_rate × (1 − discount) + O/1e6 × output_rate, with discount
0.90 for openai and anthropic and 0.75 for google. -/
theorem estimate_cost_fully_cached (model provider api_model : String) (p : Pricing)
    (I O : ℤ) (hn : normalize_model_name model = some (provider, api_model))
    (hp : get_model_pricing provider api_model = some p) (hI : 0 ≤ I) :
    estimate_cost model I O I =
      .ok ((I : ℚ) / 1000000 * p.input *
            (1 - (if provider = "google" then 3/4 else 9/10))
          + (O : ℚ) / 1000000 * p.output) := by
  have hclamp : max 0 (min I I) = I := by omega
  simp only [estimate_cost, hn, hp, hclamp, cache_discount_getD]
  congr 1
  ring_nf

/-- Claim C4 witness: a fully cached call on gpt-5.2 (openai). -/
theorem estimate_cost_fully_cached_witness :
    estimate_cost "gpt-5.2" 1000000 1000000 1000000 =
      .ok ((1000000 : ℚ) / 1000000 * (Pricing.mk (7/4) 14).input *
            (1 - (if "openai" = "google" then 3/4 else 9/10))
          + (1000000 : ℚ) / 1000000 * (Pricing.mk (7/4) 14).output) :=
  estimate_cost_fully_cached "gpt-5.2" "openai" "gpt-5.2" ⟨7/4, 14⟩ 1000000 1000000
    rfl rfl (by decide)

/-- Replacing cached_tokens by any value with the same clamp leaves the
cost unchanged. -/
theorem estimate_cost_clamp_congr (model : String) (I O c c' : ℤ)
    (h : max 0 (min c I) = max 0 (min c' I)) :
    estimate_cost model I O c = estimate_cost model I O c' := by
  unfold estimate_cost
  rw [h]

/-- Claim C5: estimate_cost behaves as if cached_tokens were clamped into
[0, input_tokens]; the uncached count is never negative; and 500 cached out
of 100 input tokens costs the same as 100 cached. -/
theorem estimate_cost_cached_clamped (model : String) (I O c : ℤ) (hI : 0 ≤ I) :
    estimate_cost model I O c = estimate_cost model I O (max 0 (min c I)) ∧
    0 ≤ I - max 0 (min c I) ∧
    estimate_cost model 100 0 500 = estimate_cost model 100 0 100 := by
  refine ⟨estimate_cost_clamp_congr model I O c _ (by omega), by omega,
    estimate_cost_clamp_congr model 100 0 500 100 (by omega)⟩

/-- Claim C5 witness at concrete inputs (gpt-5.2, oversized cached count). -/
theorem estimate_cost_cached_clamped_witness :
    estimate_cost "gpt-5.2" 100 0 500 = estimate_cost "gpt-5.2" 100 0 (max 0 (min 500 100)) ∧
    0 ≤ (100 : ℤ) - max 0 (min 500 100) ∧
    estimate_cost "gpt-5.2" 100 0 500 = estimate_cost "gpt-5.2" 100 0 100 :=
  estimate_cost_cached_clamped "gpt-5.2" 100 0 500 (by decide)

/-- Claim C6: exact match wins; every recognized provider resolves for
every model string (via the per-provider default entry); unrecognized
providers resolve to nothing. -/
theorem get_model_pricing_resolution :
    (∀ provider model p, DEFAULT_PRICING provider model = some p →
        get_model_pricing provider model = some p) ∧
    (∀ model, (get_model_pricing "openai" model).isSome = true ∧
        (get_model_pricing "google" model).isSome = true ∧
        (get_model_pricing "anthropic" model).isSome = true) ∧
    (∀ provider model, provider ≠ "openai" → provider ≠ "google" →
        provider ≠ "anthropic" → get_model_pricing provider model = none) := by
  refine ⟨?_, ?_, ?_⟩
  · intro provider model p h
    unfold get_model_pricing
    rw [h]
  · intro model
    refine ⟨?_, ?_, ?_⟩
    · unfold get_model_pricing
      rcases h : DEFAULT_PRICING "openai" model with _ | p <;> simp [h, DEFAULT_PRICING]
    · unfold get_model_pricing
      rcases h : DEFAULT_PRICING "google" model with _ | p <;> simp [h, DEFAULT_PRICING]
    · unfold get_model_pricing
      rcases h : DEFAULT_PRICING "anthropic" model with _ | p <;> simp [h, DEFAULT_PRICING]
  · intro provider model h1 h2 h3
    have hd : DEFAULT_PRICING provider model = none := by
      unfold DEFAULT_PRICING
      rw [if_neg h1, if_neg h2, if_neg h3]
    unfold get_model_pricing
    rw [hd, if_neg h1, if_neg h2, if_neg h3]

/-- Claim C6 witness: an exact hit, a fallback hit and an unrecognized
provider, at concrete inputs. -/
theorem get_model_pricing_resolution_witness :
    get_model_pricing "openai" "gpt-4" = some ⟨30, 60⟩ ∧
    (get_model_pricing "google" "totally-unknown-model").isSome = true ∧
    get_model_pricing "mistral" "gpt-4" = none :=
  ⟨get_model_pricing_resolution.1 "openai" "gpt-4" ⟨30, 60⟩ rfl,
   (get_model_pricing_resolution.2.1 "totally-unknown-model").2.1,
   get_model_pricing_resolution.2.2 "mistral" "gpt-4" (by decide) (by decide) (by decide)⟩

/-- Claim C8: estimate_cost_from_text rejects every cached_ratio outside
[0,1] with the validation error, and succeeds for every ratio inside [0,1]
when pricing resolves, with cached_tokens = ⌊input_tokens × cached_ratio⌋. -/
theorem estimate_cost_from_text_ratio_validation (model text : String) (n : ℤ) (r : ℚ) :
    (¬ (0 ≤ r ∧ r ≤ 1) →
      estimate_cost_from_text model text n r = .error .ratioOutOfRange) ∧
    (0 ≤ r → r ≤ 1 →
      ∀ provider api_model p,
        normalize_model_name model = some (provider, api_model) →
        get_model_pricing provider api_model = some p →
        (estimate_cost_from_text model text n r).map CostBreakdown.cached_tokens =
          .ok ⌊((estimate_tokens text : ℤ) : ℚ) * r⌋) := by
  constructor
  · intro h
    unfold estimate_cost_from_text
    rw [if_pos h]
  · intro h0 h1 provider api_model p hn hp
    unfold estimate_cost_from_text
    rw [if_neg (not_not_intro ⟨h0, h1⟩)]
    simp only [estimate_cost, hn, hp]
    rfl

/-- Claim C8 witness: ratio 1.5 and −0.1 fail, ratio 1/2 succeeds on
gpt-5.2 with the floored cached count. -/
theorem estimate_cost_from_text_ratio_validation_witness :
    estimate_cost_from_text "gpt-5.2" "abcdefgh" 7 (3/2) = .error .ratioOutOfRange ∧
    estimate_cost_from_text "gpt-5.2" "abcdefgh" 7 (-1/10) = .error .ratioOutOfRange ∧
    (estimate_cost_from_text "gpt-5.2" "abcdefgh" 7 (1/2)).map CostBreakdown.cached_tokens =
      .ok ⌊((estimate_tokens "abcdefgh" : ℤ) : ℚ) * (1/2)⌋ :=
  ⟨(estimate_cost_from_text_ratio_validation "gpt-5.2" "abcdefgh" 7 (3/2)).1 (by norm_num),
   (estimate_cost_from_text_ratio_validation "gpt-5.2" "abcdefgh" 7 (-1/10)).1 (by norm_num),
   (estimate_cost_from_text_ratio_validation "gpt-5.2" "abcdefgh" 7 (1/2)).2 (by norm_num) (by norm_num)
     "openai" "gpt-5.2" ⟨7/4, 14⟩ rfl rfl⟩

/-- Every embedded default pricing entry has nonnegative rates. -/
theorem DEFAULT_PRICING_nonneg (provider model : String) (p : Pricing)
    (h : DEFAULT_PRICING provider model = some p) : 0 ≤ p.input ∧ 0 ≤ p.output := by
  unfold DEFAULT_PRICING at h
  split_ifs at h <;> cases h <;> constructor <;> norm_num

/-- Every resolvable pricing entry has nonnegative rates. -/
theorem get_model_pricing_nonneg (provider model : String) (p : Pricing)
    (h : get_model_pricing provider model = some p) : 0 ≤ p.input ∧ 0 ≤ p.output := by
  unfold get_model_pricing at h
  rcases hd : DEFAULT_PRICING provider model with _ | q
  · rw [hd] at h
    simp only at h
    split_ifs at h <;> exact DEFAULT_PRICING_nonneg _ _ _ h
  · rw [hd] at h
    simp only at h
    cases h
    exact DEFAULT_PRICING_nonneg _ _ _ hd

/-- The provider cache discount is always in [0, 1]. -/
theorem cache_discount_bounds (provider : String) :
    0 ≤ (CACHE_DISCOUNTS provider).getD (9/10) ∧
      (CACHE_DISCOUNTS provider).getD (9/10) ≤ 1 := by
  unfold CACHE_DISCOUNTS
  split_ifs <;> constructor <;> norm_num

/-- estimate_cost yields a nonnegative cost whenever both token counts are
nonnegative (cached_tokens arbitrary, thanks to clamping). -/
theorem estimate_cost_nonneg (model : String) (I O c : ℤ) (hI : 0 ≤ I) (hO : 0 ≤ O)
    (q : ℚ) (h : estimate_cost model I O c = .ok q) : 0 ≤ q := by
  unfold estimate_cost at h
  rcases hn : normalize_model_name model with _ | pa
  · rw [hn] at h; cases h
  · obtain ⟨provider, api_model⟩ := pa
    rw [hn] at h
    simp only at h
    rcases hp : get_model_pricing provider api_model with _ | p
    · rw [hp] at h; cases h
    · rw [hp] at h
      simp only at h
      cases h
      obtain ⟨hpi, hpo⟩ := get_model_pricing_nonneg _ _ _ hp
      obtain ⟨hd0, hd1⟩ := cache_discount_bounds provider
      have hclamp0 : (0:ℤ) ≤ max 0 (min c I) := le_max_left 0 _
      have huncached : (0:ℤ) ≤ I - max 0 (min c I) := by omega
      apply add_nonneg
      apply add_nonneg
      · exact mul_nonneg (div_nonneg (by exact_mod_cast huncached) (by norm_num)) hpi
      · exact mul_nonneg (div_nonneg (by exact_mod_cast hclamp0) (by norm_num))
          (mul_nonneg hpi (by linarith))
      · exact mul_nonneg (div_nonneg (by exact_mod_cast hO) (by norm_num)) hpo

/-- Claim C9 counterexample: with a negative expected_output_tokens the
function returns a breakdown whose estimated_cost is negative (−14 USD for
one million negative output tokens on gpt-5.2), violating the
estimated_cost ≥ 0 invariant. -/
theorem cost_breakdown_invariant_counterexample :
    estimate_cost_from_text "gpt-5.2" "" (-1000000) 0 =
      Except.ok ⟨"gpt-5.2", 0, -1000000, 0, -14, false⟩ ∧
    ¬ (0 ≤ (-14 : ℚ)) := by
  constructor
  · have h3 : containsSub "pro".data (strLower "gpt-5.2").data = false := by decide
    simp [estimate_cost_from_text, estimate_cost, normalize_model_name, OPENAI_MODELS,
      OPENAI_ALIASES, GEMINI_MODELS, GEMINI_ALIASES, CLAUDE_MODELS, CLAUDE_ALIASES,
      get_model_pricing, DEFAULT_PRICING, CACHE_DISCOUNTS, estimate_tokens, h3]
  · norm_num

/-- Claim C9 amended: every breakdown the function returns satisfies
0 ≤ cached_tokens ≤ input_tokens, and estimated_cost ≥ 0 holds whenever
expected_output_tokens ≥ 0 (a negative expected output count yields a
negative cost; see the counterexample). -/
theorem cost_breakdown_invariant (model text : String) (n : ℤ) (r : ℚ)
    (b : CostBreakdown) (h : estimate_cost_from_text model text n r = .ok b) :
    0 ≤ b.cached_tokens ∧ b.cached_tokens ≤ b.input_tokens ∧
      (0 ≤ n → 0 ≤ b.estimated_cost) := by
  unfold estimate_cost_from_text at h
  split_ifs at h with hr
  obtain ⟨h0, h1⟩ := hr
  simp only at h
  rcases hc : estimate_cost model (estimate_tokens text : ℤ) n
      ⌊(((estimate_tokens text : ℤ) : ℚ)) * r⌋ with e | cost
  · rw [hc] at h; cases h
  · rw [hc] at h
    simp only at h
    cases h
    have hI : (0:ℤ) ≤ (estimate_tokens text : ℤ) := Int.natCast_nonneg _
    have hIq : (0:ℚ) ≤ ((estimate_tokens text : ℤ) : ℚ) := by exact_mod_cast hI
    refine ⟨?_, ?_, ?_⟩
    · exact Int.floor_nonneg.mpr (mul_nonneg hIq h0)
    · calc ⌊(((estimate_tokens text : ℤ) : ℚ)) * r⌋
          ≤ ⌊(((estimate_tokens text : ℤ) : ℚ))⌋ :=
            Int.floor_le_floor (by nlinarith [hIq])
        _ = (estimate_tokens text : ℤ) := Int.floor_intCast _
    · intro hn
      exact estimate_cost_nonneg model _ n _ hI hn cost hc

/-- Claim C9 amended witness: a concrete successful call on gpt-5.2 with
nonnegative expected output. -/
theorem cost_breakdown_invariant_witness :
    (0:ℤ) ≤ (⟨"gpt-5.2", 1, 5, 0, 287/4000000, false⟩ : CostBreakdown).cached_tokens ∧
    (⟨"gpt-5.2", 1, 5, 0, 287/4000000, false⟩ : CostBreakdown).cached_tokens ≤
      (⟨"gpt-5.2", 1, 5, 0, 287/4000000, false⟩ : CostBreakdown).input_tokens ∧
    ((0:ℤ) ≤ 5 →
      0 ≤ (⟨"gpt-5.2", 1, 5, 0, 287/4000000, false⟩ : CostBreakdown).estimated_cost) :=
  cost_breakdown_invariant "gpt-5.2" "abcd" 5 0 ⟨"gpt-5.2", 1, 5, 0, 287/4000000, false⟩
    (by
      have h1 : "abcd".length = 4 := by decide
      have h3 : containsSub "pro".data (strLower "gpt-5.2").data = false := by decide
      simp [estimate_cost_from_text, estimate_cost, normalize_model_name, OPENAI_MODELS,
        OPENAI_ALIASES, GEMINI_MODELS, GEMINI_ALIASES, CLAUDE_MODELS, CLAUDE_ALIASES,
        get_model_pricing, DEFAULT_PRICING, CACHE_DISCOUNTS, estimate_tokens, h1, h3]
      norm_num)

/-- Claim C7 counterexample: the pricing data that carries the
vendor-confirmation flag (cost_tracker.PRICING) marks "claude" as
estimated (true), yet costs.estimate_cost_from_text returns
is_estimated = false for "claude" — the flag there is recomputed from the
model name ("pro" substring test), not propagated from pricing data.  The
cost_tracker variant of the same function propagates it (true). -/
theorem is_estimated_not_propagated_counterexample :
    estimate_cost_from_text "claude" "abcd" 10 0 =
      Except.ok ⟨"claude", 1, 10, 0, 153/1000000, false⟩ ∧
    (CostTracker.PRICING "claude").map CostTracker.TrackerPricing.is_estimated =
      some true ∧
    CostTracker.estimate_cost_from_text "claude" "abcd" 10 0 =
      Except.ok ⟨"claude", 1, 10, 0, 153/1000000, true⟩ := by
  refine ⟨?_, rfl, ?_⟩
  · have h1 : "abcd".length = 4 := by decide
    have h3 : containsSub "pro".data (strLower "claude").data = false := by decide
    simp [estimate_cost_from_text, estimate_cost, normalize_model_name, OPENAI_MODELS,
      OPENAI_ALIASES, GEMINI_MODELS, GEMINI_ALIASES, CLAUDE_MODELS, CLAUDE_ALIASES,
      get_model_pricing, DEFAULT_PRICING, CACHE_DISCOUNTS, estimate_tokens, h1, h3]
    norm_num
  · have h1 : "abcd".length = 4 := by decide
    simp [CostTracker.estimate_cost_from_text, CostTracker.estimate_cost,
      CostTracker.PRICING, estimate_tokens, h1]
    norm_num

/-- Claim C7 amended: cost_tracker.estimate_cost_from_text propagates
is_estimated unchanged from its PRICING entry; costs.estimate_cost_from_text
instead recomputes it from the model name alone (whether the lowercased
name contains "pro"), independent of the pricing data. -/
theorem is_estimated_propagation :
    (∀ model text n r entry b,
      CostTracker.PRICING model = some entry →
      CostTracker.estimate_cost_from_text model text n r = .ok b →
      b.is_estimated = entry.is_estimated) ∧
    (∀ model text n r b,
      estimate_cost_from_text model text n r = .ok b →
      b.is_estimated = containsSub "pro".data (strLower model).data) := by
  constructor
  · intro model text n r entry b hpr h
    unfold CostTracker.estimate_cost_from_text at h
    split_ifs at h
    simp only at h
    rcases hc : CostTracker.estimate_cost model (estimate_tokens text : ℤ) n
        ⌊(((estimate_tokens text : ℤ) : ℚ)) * r⌋ with e | cost
    · rw [hc] at h; cases h
    · rw [hc] at h
      simp only at h
      cases h
      simp [hpr]
  · intro model text n r b h
    unfold estimate_cost_from_text at h
    split_ifs at h
    simp only at h
    rcases hc : estimate_cost model (estimate_tokens text : ℤ) n
        ⌊(((estimate_tokens text : ℤ) : ℚ)) * r⌋ with e | cost
    · rw [hc] at h; cases h
    · rw [hc] at h
      simp only at h
      cases h
      rfl

/-- Claim C7 amended witness: both variants evaluated on "claude". -/
theorem is_estimated_propagation_witness :
    (⟨"claude", 1, 5, 0, 78/1000000, true⟩ : CostBreakdown).is_estimated =
      (⟨3, 15, 3/10, true⟩ : CostTracker.TrackerPricing).is_estimated ∧
    (⟨"claude", 1, 5, 0, 78/1000000, false⟩ : CostBreakdown).is_estimated =
      containsSub "pro".data (strLower "claude").data :=
  ⟨is_estimated_propagation.1 "claude" "abcd" 5 0 ⟨3, 15, 3/10, true⟩
      ⟨"claude", 1, 5, 0, 78/1000000, true⟩ rfl
      (by
        have h1 : "abcd".length = 4 := by decide
        simp [CostTracker.estimate_cost_from_text, CostTracker.estimate_cost,
          CostTracker.PRICING, estimate_tokens, h1]
        norm_num),
   is_estimated_propagation.2 "claude" "abcd" 5 0
      ⟨"claude", 1, 5, 0, 78/1000000, false⟩
      (by
        have h1 : "abcd".length = 4 := by decide
        have h3 : containsSub "pro".data (strLower "claude").data = false := by decide
        simp [estimate_cost_from_text, estimate_cost, normalize_model_name, OPENAI_MODELS,
          OPENAI_ALIASES, GEMINI_MODELS, GEMINI_ALIASES, CLAUDE_MODELS, CLAUDE_ALIASES,
          get_model_pricing, DEFAULT_PRICING, CACHE_DISCOUNTS, estimate_tokens, h1, h3]
        norm_num)⟩
